import Mathlib

/-!
Verification of the facial-expression-recognition frontend against its
specification.  The TypeScript sources are shallowly embedded below:

* `AppComponent.processInferenceData` — src/frontend/src/app/app.component.ts
* `AppComponentFrame.processInferenceData` — the variant of the component that
  also stores a server-rendered camera frame (`currentFrame`)
* `CameraStream.ngOnChanges` — camera-stream.component.ts
* `FaceCard.isPanelOnLeft` — face-card component
* `EmotionWheel.draw` geometry — emotion-wheel.component.ts
* `BioSignal.draw` — bio-signal-waveform.component.ts
* `WebsocketService` retry configuration — websocket.service.ts

JavaScript numbers are modelled as rationals (`ℚ`); the places where IEEE
special values (`Infinity`, `NaN`) are produced by the code are modelled
explicitly with the `JSNum` type.  Nullable / possibly-absent dynamic fields
are modelled with `Option`.
-/

namespace FacialExpr

/-- One decoded inbound websocket message, as the component accesses it
dynamically.  `msgType` is the wire envelope's `type` field (the component
never reads it); `faces` is `none` when the message has no `faces` map
(`!data.faces`); `frame` is the optional base64 camera frame.  The per-face
payload type is a parameter `α` since the component stores it opaquely. -/
structure InferenceMsg (α : Type) where
  msgType : Option String
  frame_id : ℚ
  timestamp : ℚ
  faces : Option (List (String × α))
  frame : Option String
deriving DecidableEq

/-- The mutable fields of `AppComponent` that `processInferenceData` touches
(src/frontend/src/app/app.component.ts). -/
structure AppState (α : Type) where
  faces : List (String × α)
  fps : ℚ
  backendLatencyMs : ℚ
  lastFrameTimestamp : ℚ
deriving DecidableEq

/-- Field initialisers of `AppComponent`: `faces = {}`, `fps = 0`,
`backendLatencyMs = 0`, `lastFrameTimestamp = 0`. -/
def initialAppState (α : Type) : AppState α := ⟨[], 0, 0, 0⟩

namespace AppComponent

/-- Embedding of `AppComponent.processInferenceData` from
src/frontend/src/app/app.component.ts:

```
if (!data || !data.faces) return;
this.faces = data.faces;
const now = performance.now();
if (this.lastFrameTimestamp > 0) {
  const delta = now - this.lastFrameTimestamp;
  this.fps = 1000 / delta;
}
this.lastFrameTimestamp = now;
const serverTime = data.timestamp * 1000;
const systemTime = Date.now();
this.backendLatencyMs = Math.max(0, systemTime - serverTime);
```

`now` is the `performance.now()` reading, `sysNow` the `Date.now()` reading. -/
def processInferenceData (s : AppState α) (data : Option (InferenceMsg α))
    (now sysNow : ℚ) : AppState α :=
  match data with
  | none => s
  | some d =>
    match d.faces with
    | none => s
    | some f =>
      let s1 := { s with faces := f }
      let s2 := if s1.lastFrameTimestamp > (0 : ℚ)
                then { s1 with fps := 1000 / (now - s1.lastFrameTimestamp) }
                else s1
      let s3 := { s2 with lastFrameTimestamp := now }
      { s3 with backendLatencyMs := max 0 (sysNow - d.timestamp * 1000) }

end AppComponent

/-- The mutable fields of the `AppComponent` variant that also stores a
server-rendered camera frame (`currentFrame`). -/
structure AppStateF (α : Type) where
  faces : List (String × α)
  currentFrame : String
  fps : ℚ
  backendLatencyMs : ℚ
  lastFrameTimestamp : ℚ
deriving DecidableEq

/-- Field initialisers of the frame-carrying `AppComponent` variant. -/
def initialAppStateF (α : Type) : AppStateF α := ⟨[], "", 0, 0, 0⟩

namespace AppComponentFrame

/-- Embedding of `AppComponent.processInferenceData` from the variant of the
component that stores the server frame:

```
if (!data) return;
this.faces = data.faces || {};
if (data.frame) {
  this.currentFrame = data.frame;
}
const now = performance.now();
if (this.lastFrameTimestamp > 0) {
  const delta = now - this.lastFrameTimestamp;
  this.fps = 1000 / delta;
}
this.lastFrameTimestamp = now;
const serverTime = data.timestamp * 1000;
const systemTime = Date.now();
this.backendLatencyMs = Math.max(0, systemTime - serverTime);
```

`if (data.frame)` is true exactly when the field is present and a non-empty
string (JS string truthiness). -/
def processInferenceData (s : AppStateF α) (data : Option (InferenceMsg α))
    (now sysNow : ℚ) : AppStateF α :=
  match data with
  | none => s
  | some d =>
    let s1 := { s with faces := d.faces.getD [] }
    let s2 := match d.frame with
              | some fr => if fr ≠ "" then { s1 with currentFrame := fr } else s1
              | none => s1
    let s3 := if s2.lastFrameTimestamp > (0 : ℚ)
              then { s2 with fps := 1000 / (now - s2.lastFrameTimestamp) }
              else s2
    let s4 := { s3 with lastFrameTimestamp := now }
    { s4 with backendLatencyMs := max 0 (sysNow - d.timestamp * 1000) }

end AppComponentFrame

namespace CameraStream

/-- Embedding of `CameraStreamComponent.ngOnChanges`:

```
if (changes['frameBase64'] && this.frameBase64) {
  this.frameSrc = 'data:image/jpeg;base64,' + this.frameBase64;
}
```

`frameChanged` models the presence of the `frameBase64` entry in `changes`;
`this.frameBase64` is truthy exactly when non-empty. -/
def ngOnChanges (frameSrc : String) (frameChanged : Bool) (frameBase64 : String) :
    String :=
  if frameChanged && frameBase64 ≠ "" then "data:image/jpeg;base64," ++ frameBase64
  else frameSrc

end CameraStream

namespace FaceCard

/-- The side of the bounding box the info panel attaches to. -/
inductive Side where
  | LEFT
  | RIGHT
deriving DecidableEq

/-- Embedding of `FaceCardComponent.isPanelOnLeft`:

```
const panelWidth = 240;
const margin = 12;
return (this.x + this.width + panelWidth + margin) > this.screenWidth;
```
-/
def isPanelOnLeft (x width screenWidth : ℚ) : Bool :=
  let panelWidth : ℚ := 240
  let margin : ℚ := 12
  decide (x + width + panelWidth + margin > screenWidth)

/-- The panel side chosen by the template: `LEFT` when `isPanelOnLeft`,
otherwise `RIGHT` (the `[class.left-full]` / `[class.right-full]` bindings). -/
def panelSide (x width screenWidth : ℚ) : Side :=
  if isPanelOnLeft x width screenWidth then Side.LEFT else Side.RIGHT

end FaceCard

namespace EmotionWheel

/-- One entry of the fixed `emotions` array of `EmotionWheelComponent`. -/
structure Emotion where
  label : String
  key : String
  color : String
  emoji : String
deriving DecidableEq

/-- The fixed 7-category array of `EmotionWheelComponent`. -/
def emotions : List Emotion :=
  [⟨"Happy", "Happy", "#fbbf24", "😊"⟩,
   ⟨"Surprise", "Surprise", "#c084fc", "😲"⟩,
   ⟨"Fear", "Fear", "#818cf8", "😨"⟩,
   ⟨"Sad", "Sad", "#60a5fa", "😢"⟩,
   ⟨"Disgust", "Disgust", "#34d399", "🤢"⟩,
   ⟨"Angry", "Angry", "#fb7185", "😠"⟩,
   ⟨"Neutral", "Neutral", "#94a3b8", "😐"⟩]

/-- The key of the `i`-th category. -/
def emotionKey (i : Fin 7) : String := (emotions.get ⟨i.1, i.2⟩).key

/-- Angles computed by `draw` all have the form `q·π + c` with `q c : ℚ`
(`slice = 2π/N`, `off = -π/2`, `gap = 0.035`).  They are represented exactly
by the pair `(q, c)`; since `π` is irrational this representation is faithful
to the real-valued angles of the source. -/
@[ext]
structure Angle where
  piCoeff : ℚ
  rad : ℚ
deriving DecidableEq

instance : Add Angle := ⟨fun a b => ⟨a.piCoeff + b.piCoeff, a.rad + b.rad⟩⟩

instance : Sub Angle := ⟨fun a b => ⟨a.piCoeff - b.piCoeff, a.rad - b.rad⟩⟩

instance : SMul ℚ Angle := ⟨fun q a => ⟨q * a.piCoeff, q * a.rad⟩⟩

/-- `gap = 0.035` radians between segments. -/
def gapAngle : Angle := ⟨0, 7/200⟩

/-- `slice = (2 * Math.PI) / N` with `N = 7`. -/
def sliceAngle : Angle := ⟨2/7, 0⟩

/-- `off = -Math.PI / 2` (start from top). -/
def offAngle : Angle := ⟨-(1/2), 0⟩

/-- `a0 = off + i * slice + gap`, the start angle of slice `i`. -/
def arcStart (i : ℕ) : Angle := offAngle + (i : ℚ) • sliceAngle + gapAngle

/-- `a1 = off + (i + 1) * slice - gap`, the stop angle of slice `i`. -/
def arcStop (i : ℕ) : Angle := offAngle + ((i : ℚ) + 1) • sliceAngle - gapAngle

/-- `const prob = this.probabilities?.[em.key] || 0` — a missing probability
reads as `0`. -/
def emotionProb (probs : String → Option ℚ) (k : String) : ℚ := (probs k).getD 0

/-- The filled arc for a category is drawn unless the loop body hits
`if (prob < 0.01) continue`. -/
def arcDrawn (probs : String → Option ℚ) (k : String) : Bool :=
  if emotionProb probs k < 1/100 then false else true

/-- `fillEnd = a0 + (a1 - a0) * Math.min(1, prob)`, the end angle of the
filled arc of slice `i` for probability `p`. -/
def fillEnd (p : ℚ) (i : ℕ) : Angle :=
  arcStart i + min 1 p • (arcStop i - arcStart i)

end EmotionWheel

namespace BioSignal

/-- JavaScript (IEEE-754) numbers as far as this component can produce them:
a finite value, one of the two infinities (from division by zero), or `NaN`
(from `0 * Infinity`). -/
inductive JSNum where
  | fin (q : ℚ)
  | posInf
  | negInf
  | nan
deriving DecidableEq

/-- IEEE-754 multiplication on `JSNum`. -/
def JSNum.mul : JSNum → JSNum → JSNum
  | .nan, _ => .nan
  | _, .nan => .nan
  | .fin a, .fin b => .fin (a * b)
  | .fin a, .posInf => if 0 < a then .posInf else if a < 0 then .negInf else .nan
  | .fin a, .negInf => if 0 < a then .negInf else if a < 0 then .posInf else .nan
  | .posInf, .fin b => if 0 < b then .posInf else if b < 0 then .negInf else .nan
  | .negInf, .fin b => if 0 < b then .negInf else if b < 0 then .posInf else .nan
  | .posInf, .posInf => .posInf
  | .posInf, .negInf => .negInf
  | .negInf, .posInf => .negInf
  | .negInf, .negInf => .posInf

/-- IEEE-754 division on `JSNum` (JS `/`); dividing a non-zero finite value
by zero yields a signed infinity, `0 / 0` yields `NaN`. -/
def JSNum.div : JSNum → JSNum → JSNum
  | .nan, _ => .nan
  | _, .nan => .nan
  | .fin a, .fin b =>
      if b ≠ 0 then .fin (a / b)
      else if 0 < a then .posInf else if a < 0 then .negInf else .nan
  | .fin _, .posInf => .fin 0
  | .fin _, .negInf => .fin 0
  | .posInf, .fin b => if b < 0 then .negInf else .posInf
  | .negInf, .fin b => if b < 0 then .posInf else .negInf
  | .posInf, .posInf => .nan
  | .posInf, .negInf => .nan
  | .negInf, .posInf => .nan
  | .negInf, .negInf => .nan

/-- The drawing operations `BioSignalWaveformComponent.draw` issues to the
canvas, in order.  `segments` is the number of cubic `bezierCurveTo` segments
`drawCardinalSpline` contributed to the path being filled or stroked. -/
inductive WaveCmd where
  | clear
  | background
  | baseline
  | fillUnderCurve (segments : ℕ)
  | glowStroke (segments : ℕ)
  | mainStroke (segments : ℕ)
  | endDot (x : JSNum) (y : ℚ)
deriving DecidableEq

/-- Number of bezier segments emitted by `drawCardinalSpline` on a point list
`pts` (stored flat as `[x,y,x,y,...]` in the source, so the flat length is
`2 * pts.length`): the function returns before drawing when the flat length
is `< 4`, otherwise its loop runs `pts.length - 1` times. -/
def splineSegments (pts : List (JSNum × ℚ)) : ℕ :=
  if 2 * pts.length < 4 then 0 else pts.length - 1

/-- The y-coordinate of a sample `v`:
`Math.max(4, Math.min(h - 4, midY - v * scaleY))` with `h = 96`,
`midY = h * 0.55`, `scaleY = h / 3`. -/
def yCoord (v : ℚ) : ℚ :=
  let h : ℚ := 96
  let midY := h * 0.55
  let scaleY := h / 3
  max 4 (min (h - 4) (midY - v * scaleY))

/-- Embedding of `BioSignalWaveformComponent.draw` as the ordered list of
canvas operations it performs.  The guard
`if (!this.ctx || !this.waveform || this.waveform.length === 0) return;`
makes the empty sample list produce no operation at all.  Otherwise
`stepX = w / (waveform.length - 1)` (a JS division, `Infinity` for a single
sample) and point `i` sits at `x = i * stepX` (JS multiplication, `NaN` when
`stepX` is `Infinity` and `i = 0`).  The final scanning dot is drawn at the
last point. -/
def draw (waveform : List ℚ) : List WaveCmd :=
  if waveform.length = 0 then []
  else
    let w : ℚ := 480
    let stepX : JSNum := JSNum.div (.fin w) (.fin ((waveform.length : ℚ) - 1))
    let pts : List (JSNum × ℚ) :=
      waveform.enum.map (fun p => (JSNum.mul (.fin (p.1 : ℚ)) stepX, yCoord p.2))
    let seg := splineSegments pts
    let lastPt := pts.getLast?.getD (.nan, 0)
    [.clear, .background, .baseline, .fillUnderCurve seg, .glowStroke seg,
     .mainStroke seg, .endDot lastPt.1 lastPt.2]

/-- The dots actually rendered on the canvas: per the HTML canvas
specification, `arc` with a non-finite coordinate draws nothing, so only an
`endDot` with a finite x-coordinate produces a visible dot. -/
def renderedDots (cmds : List WaveCmd) : List (ℚ × ℚ) :=
  cmds.filterMap fun c =>
    match c with
    | .endDot (.fin x) y => some (x, y)
    | _ => none

/-- Template binding `{{ state === 'CALIBRATING' ? '--' : bpm.toFixed(0) }}`:
`toFixed(0)` rounds to the nearest integer, ties toward the larger value. -/
def jsToFixed0 (q : ℚ) : ℤ := ⌊q + 1/2⌋

/-- The BPM readout text of the template. -/
def bpmText (st : String) (bpm : ℚ) : String :=
  if st = "CALIBRATING" then "--" else toString (jsToFixed0 bpm)

/-- The translucent overlay panel of the template is present exactly when
`*ngIf="state === 'CALIBRATING'"` holds. -/
def calibratingOverlay (st : String) : Bool := st = "CALIBRATING"

end BioSignal

namespace WebsocketService

/-- The rxjs `RetryConfig` fields used by the service: `count` (omitted =
retry without bound) and `delay` in milliseconds. -/
structure RetryConfig where
  count : Option ℕ
  delayMs : ℚ
deriving DecidableEq

/-- The configuration from `retry({ delay: 2000 })` in
`websocket.service.ts`: no `count`, fixed 2000 ms delay. -/
def inferenceRetryConfig : RetryConfig := ⟨none, 2000⟩

/-- Whether the rxjs `retry` operator resubscribes after the `attempt`-th
failure: always when `count` is omitted, otherwise only while the number of
failures is below `count`. -/
def retryAllowed (cfg : RetryConfig) (attempt : ℕ) : Bool :=
  match cfg.count with
  | none => true
  | some c => attempt < c

/-- Events a consumer of the retried stream can observe. -/
inductive StreamEvent (α : Type) where
  | next (a : α)
  | reconnectWait (ms : ℚ)
  | fatalError
deriving DecidableEq

/-- `true` for every event except a fatal downstream error or a reconnect
wait of the wrong length: the events the specification allows. -/
def goodEvent : StreamEvent α → Bool
  | .fatalError => false
  | .reconnectWait ms => decide (ms = 2000)
  | .next _ => true

/-- The snapshot carried by a `next` event, if any. -/
def nextPayload : StreamEvent α → Option α
  | .next a => some a
  | _ => none

/-- Trace semantics of the rxjs `retry` operator applied to the socket
stream, modelled from the operator's documented contract: `sessions k` is the
list of messages the `k`-th connection session delivers before it ends in a
transport error (rxjs `webSocket` surfaces errors and abnormal closes as
stream errors).  After the `k`-th failure the operator waits `delayMs` and
resubscribes when `retryAllowed`, and otherwise propagates the error to the
consumer.  `retryRun cfg sessions n` is the observable trace after `n` failed
sessions. -/
def retryRun (cfg : RetryConfig) (sessions : ℕ → List α) : ℕ → List (StreamEvent α)
  | 0 => []
  | n + 1 =>
      retryRun cfg sessions n ++ (sessions n).map .next ++
        (if retryAllowed cfg n then [.reconnectWait cfg.delayMs] else [.fatalError])

end WebsocketService

/-! ### Concrete sample inputs used by witnesses and counterexamples -/

/-- A message with no envelope `type` and a one-face map. -/
def msgPlain : InferenceMsg ℕ := ⟨none, 1, 2, some [("e1", 1)], none⟩

/-- A well-formed envelope per the repository's websocket protocol document:
`type` is `"inference_results"` but the faces live under `payload`, so the
message has no top-level `faces` map. -/
def msgNoFaces : InferenceMsg ℕ := ⟨some "inference_results", 1, 2, none, none⟩

/-- A message whose `type` is not `"inference_results"` but which carries a
top-level `faces` map. -/
def msgOtherType : InferenceMsg ℕ := ⟨some "status_update", 1, 2, some [("e1", 1)], none⟩

/-- A message carrying an empty-string `frame` field. -/
def msgEmptyFrame : InferenceMsg ℕ := ⟨some "inference_results", 2, 3, some [("e2", 2)], some ""⟩

/-- A component state that has already seen an arrival at time 5. -/
def midState : AppState ℕ := ⟨[], 0, 0, 5⟩

/-- A frame-carrying component state that has already seen an arrival at
time 5 and stores a previously received frame. -/
def frameState : AppStateF ℕ := ⟨[("old", 0)], "prevframe", 0, 0, 5⟩

/-- A probability table assigning 1.0 to `"Happy"` and leaving every other
category absent. -/
def happyProbs : String → Option ℚ := fun k => if k = "Happy" then some 1 else none

/-! ## Helper lemmas -/

/-- Unfolding lemma: processing a message that carries a faces map performs
all four state updates of the method body. -/
theorem AppComponent.process_valid {α : Type} (s : AppState α) (d : InferenceMsg α)
    (f : List (String × α)) (now sysNow : ℚ) (hf : d.faces = some f) :
    AppComponent.processInferenceData s (some d) now sysNow =
      { faces := f,
        fps := if s.lastFrameTimestamp > (0 : ℚ)
               then 1000 / (now - s.lastFrameTimestamp) else s.fps,
        backendLatencyMs := max 0 (sysNow - d.timestamp * 1000),
        lastFrameTimestamp := now } := by
  simp only [AppComponent.processInferenceData, hf]
  split <;> rfl

/-- Unfolding lemma: a missing payload leaves the state untouched. -/
theorem AppComponent.process_none {α : Type} (s : AppState α) (now sysNow : ℚ) :
    AppComponent.processInferenceData s none now sysNow = s := rfl

/-- Unfolding lemma: a payload with no faces map leaves the state untouched. -/
theorem AppComponent.process_no_faces {α : Type} (s : AppState α) (d : InferenceMsg α)
    (now sysNow : ℚ) (hf : d.faces = none) :
    AppComponent.processInferenceData s (some d) now sysNow = s := by
  simp only [AppComponent.processInferenceData, hf]

/-! ## Claims -/

/-- C1: amended FPS claim.  For consecutively processed snapshots arriving at
`t1 < t2`, the reported fps after the second observation is `1000/(t2 - t1)`
provided `t1 > 0`; the code cannot distinguish an arrival at time `0` from
the "no previous arrival" sentinel.  On the very first observation from the
initial state, the fps field keeps its initial zero value and no division is
performed. -/
theorem fps_consecutive_observations (α : Type) :
    (∀ (s : AppState α) (d1 d2 : InferenceMsg α) (t1 t2 sys1 sys2 : ℚ),
        d1.faces.isSome → d2.faces.isSome → 0 < t1 → t1 < t2 →
          (AppComponent.processInferenceData
              (AppComponent.processInferenceData s (some d1) t1 sys1)
              (some d2) t2 sys2).fps = 1000 / (t2 - t1))
  ∧ (∀ (d : InferenceMsg α) (t sys : ℚ),
        (AppComponent.processInferenceData (initialAppState α) (some d) t sys).fps
          = 0) := by
  constructor
  · intro s d1 d2 t1 t2 sys1 sys2 h1 h2 hpos _
    obtain ⟨f1, hf1⟩ := Option.isSome_iff_exists.mp h1
    obtain ⟨f2, hf2⟩ := Option.isSome_iff_exists.mp h2
    rw [AppComponent.process_valid s d1 f1 t1 sys1 hf1,
        AppComponent.process_valid _ d2 f2 t2 sys2 hf2]
    simp [hpos]
  · intro d t sys
    cases hf : d.faces with
    | none => rw [AppComponent.process_no_faces _ _ _ _ hf]; rfl
    | some f =>
        rw [AppComponent.process_valid _ _ _ _ _ hf]
        simp [initialAppState]

/-- C1 witness: two valid snapshots at arrival times 1 and 3 yield
`fps = 1000 / (3 - 1) = 500`. -/
theorem fps_consecutive_observations_witness :
    msgPlain.faces.isSome = true ∧ (0 : ℚ) < 1 ∧ (1 : ℚ) < 3 ∧
    (AppComponent.processInferenceData
        (AppComponent.processInferenceData (initialAppState ℕ) (some msgPlain) 1 0)
        (some msgPlain) 3 0).fps = 1000 / (3 - 1) :=
  ⟨rfl, by norm_num, by norm_num,
   (fps_consecutive_observations ℕ).1 (initialAppState ℕ) msgPlain msgPlain 1 3 0 0
     rfl rfl (by norm_num) (by norm_num)⟩

/-- C1 counterexample: the claim as stated fails when the first snapshot
arrives at time `t1 = 0` (with `t1 < t2 = 100`): the code leaves fps at `0`
instead of reporting `1000 / (t2 - t1) = 10`. -/
theorem fps_zero_first_arrival_counterexample :
    (AppComponent.processInferenceData
        (AppComponent.processInferenceData (initialAppState ℕ) (some msgPlain) 0 0)
        (some msgPlain) 100 0).fps = 0
  ∧ (0 : ℚ) < 100 ∧ (1000 / (100 - 0) : ℚ) ≠ 0 := by
  refine ⟨rfl, by norm_num, by norm_num⟩

/-- C2: for every processed snapshot the reported backend latency is
`max 0 (systemTime - timestamp * 1000)`, hence never negative. -/
theorem latency_clamped (α : Type) :
    ∀ (s : AppState α) (d : InferenceMsg α) (now sysNow : ℚ),
      d.faces.isSome →
        (AppComponent.processInferenceData s (some d) now sysNow).backendLatencyMs
            = max 0 (sysNow - d.timestamp * 1000)
        ∧ 0 ≤ (AppComponent.processInferenceData s (some d) now sysNow).backendLatencyMs := by
  intro s d now sysNow h
  obtain ⟨f, hf⟩ := Option.isSome_iff_exists.mp h
  rw [AppComponent.process_valid s d f now sysNow hf]
  exact ⟨rfl, le_max_left 0 _⟩

/-- C2 witness: a snapshot stamped at server time 2 s processed when the
client wall clock reads 1 ms has raw difference `1 - 2000 < 0` and is
reported as latency `0`. -/
theorem latency_clamped_witness :
    msgPlain.faces.isSome = true ∧
    (AppComponent.processInferenceData (initialAppState ℕ) (some msgPlain) 0 1).backendLatencyMs
      = 0 := by
  refine ⟨rfl, ?_⟩
  rw [(latency_clamped ℕ (initialAppState ℕ) msgPlain 0 1 rfl).1]
  norm_num [msgPlain]

/-- C3: amended placement claim.  The panel side is a pure function of the
box geometry and viewport width; it is `LEFT` exactly when
`boxRight + panelWidth + margin > viewportWidth` (strictly), so at equality
the panel stays on the `RIGHT` — not on the `LEFT` as the claim states. -/
theorem panel_side_characterization :
    ∀ x w sw : ℚ,
      (FaceCard.panelSide x w sw = FaceCard.Side.LEFT ↔ x + w + 240 + 12 > sw)
    ∧ (x + w + 240 + 12 = sw → FaceCard.panelSide x w sw = FaceCard.Side.RIGHT) := by
  intro x w sw
  constructor
  · by_cases h : x + w + 240 + 12 > sw <;>
      simp [FaceCard.panelSide, FaceCard.isPanelOnLeft, h]
  · intro he
    simp [FaceCard.panelSide, FaceCard.isPanelOnLeft, he]

/-- C3 witness: just beyond the boundary (`0 + 1669 + 240 + 12 > 1920`) the
panel flips to the left. -/
theorem panel_side_characterization_witness :
    ((0 : ℚ) + 1669 + 240 + 12 > 1920)
  ∧ FaceCard.panelSide 0 1669 1920 = FaceCard.Side.LEFT :=
  ⟨by norm_num, (panel_side_characterization 0 1669 1920).1.mpr (by norm_num)⟩

/-- C3 counterexample: at the exact boundary
`boxRight + panelWidth + margin = viewportWidth` (box right edge 1668,
viewport 1920) the code keeps the panel on the RIGHT, contradicting the
claim that at equality the panel is on the LEFT. -/
theorem panel_side_boundary_counterexample :
    ((0 : ℚ) + 1668 + 240 + 12 = 1920)
  ∧ FaceCard.panelSide 0 1668 1920 ≠ FaceCard.Side.LEFT := by
  refine ⟨by norm_num, ?_⟩
  norm_num [FaceCard.panelSide, FaceCard.isPanelOnLeft]
  intro h
  exact FaceCard.Side.noConfusion h

/-- Componentwise description of angle addition. -/
@[simp]
theorem EmotionWheel.Angle.add_def (a b : EmotionWheel.Angle) :
    a + b = ⟨a.piCoeff + b.piCoeff, a.rad + b.rad⟩ := rfl

/-- Componentwise description of angle subtraction. -/
@[simp]
theorem EmotionWheel.Angle.sub_def (a b : EmotionWheel.Angle) :
    a - b = ⟨a.piCoeff - b.piCoeff, a.rad - b.rad⟩ := rfl

/-- Componentwise description of scaling an angle by a rational. -/
@[simp]
theorem EmotionWheel.Angle.smul_def (q : ℚ) (a : EmotionWheel.Angle) :
    q • a = ⟨q * a.piCoeff, q * a.rad⟩ := rfl

/-- C4: for each of the 7 fixed categories, the filled arc is drawn exactly
when the looked-up probability is at least the 0.01 visibility threshold (so
a missing or zero probability draws nothing); the filled angular extent is
always `min 1 p` times the slice extent `a1 - a0` (the slice minus both
gaps), and a probability of 1.0 fills the slice exactly up to its stop
angle. -/
theorem emotion_arc_fill_spec (probs : String → Option ℚ) (i : Fin 7) :
    (EmotionWheel.arcDrawn probs (EmotionWheel.emotionKey i) = true
       ↔ 1/100 ≤ EmotionWheel.emotionProb probs (EmotionWheel.emotionKey i))
  ∧ (probs (EmotionWheel.emotionKey i) = none →
       EmotionWheel.arcDrawn probs (EmotionWheel.emotionKey i) = false)
  ∧ (EmotionWheel.emotionProb probs (EmotionWheel.emotionKey i) = 0 →
       EmotionWheel.arcDrawn probs (EmotionWheel.emotionKey i) = false)
  ∧ EmotionWheel.fillEnd (EmotionWheel.emotionProb probs (EmotionWheel.emotionKey i)) i.1
        - EmotionWheel.arcStart i.1
      = min 1 (EmotionWheel.emotionProb probs (EmotionWheel.emotionKey i))
          • (EmotionWheel.arcStop i.1 - EmotionWheel.arcStart i.1)
  ∧ EmotionWheel.fillEnd 1 i.1 = EmotionWheel.arcStop i.1 := by
  refine ⟨?_, ?_, ?_, ?_, ?_⟩
  · unfold EmotionWheel.arcDrawn
    by_cases h : EmotionWheel.emotionProb probs (EmotionWheel.emotionKey i) < 1/100
    · simp only [if_pos h]
      exact iff_of_false (by simp) (not_le.mpr h)
    · simp only [if_neg h]
      exact iff_of_true trivial (not_lt.mp h)
  · intro h
    unfold EmotionWheel.arcDrawn
    rw [if_pos]
    show EmotionWheel.emotionProb probs (EmotionWheel.emotionKey i) < 1/100
    simp only [EmotionWheel.emotionProb, h, Option.getD_none]
    norm_num
  · intro h
    unfold EmotionWheel.arcDrawn
    rw [if_pos]
    rw [h]
    norm_num
  · unfold EmotionWheel.fillEnd
    ext <;> simp
  · unfold EmotionWheel.fillEnd
    have hmin : min (1 : ℚ) 1 = 1 := min_self 1
    rw [hmin]
    unfold EmotionWheel.arcStart EmotionWheel.arcStop
    ext <;> simp

/-- C4 witness: with probability 1.0 assigned to `"Happy"` (category 0) and
every other category missing, the `"Happy"` arc is drawn. -/
theorem emotion_arc_fill_spec_witness :
    EmotionWheel.arcDrawn happyProbs "Happy" = true :=
  (emotion_arc_fill_spec happyProbs 0).1.mpr
    (by norm_num [EmotionWheel.emotionProb, happyProbs, EmotionWheel.emotionKey,
                  EmotionWheel.emotions])

/-- C5: amended message-handling claim.  The component never inspects a
message's `type` field: an inbound message is ignored (faces, fps, backend
latency and all prior state unchanged) exactly when it is missing/malformed
or lacks a top-level `faces` map, and every message carrying a top-level
`faces` map is processed and replaces the faces map, whatever its `type`
field holds. -/
theorem message_guard_characterization (α : Type) :
    (∀ (s : AppState α) (t sys : ℚ),
        AppComponent.processInferenceData s none t sys = s)
  ∧ (∀ (s : AppState α) (d : InferenceMsg α) (t sys : ℚ), d.faces = none →
        AppComponent.processInferenceData s (some d) t sys = s)
  ∧ (∀ (s : AppState α) (d : InferenceMsg α) (t sys : ℚ) (ty : Option String),
        AppComponent.processInferenceData s
            (some ⟨ty, d.frame_id, d.timestamp, d.faces, d.frame⟩) t sys
          = AppComponent.processInferenceData s (some d) t sys)
  ∧ (∀ (s : AppState α) (d : InferenceMsg α) (t sys : ℚ) (f : List (String × α)),
        d.faces = some f →
          (AppComponent.processInferenceData s (some d) t sys).faces = f) := by
  refine ⟨fun s t sys => rfl, ?_, ?_, ?_⟩
  · intro s d t sys hf
    exact AppComponent.process_no_faces s d t sys hf
  · intro s d t sys ty
    obtain ⟨ty0, fid, ts, fcs, fr⟩ := d
    cases fcs <;> rfl
  · intro s d t sys f hf
    rw [AppComponent.process_valid s d f t sys hf]

/-- C5 witness: the documented envelope message (type `"inference_results"`,
no top-level faces map) is ignored: the state is left unchanged. -/
theorem message_guard_characterization_witness :
    msgNoFaces.faces = none ∧
    AppComponent.processInferenceData (initialAppState ℕ) (some msgNoFaces) 1 1
      = initialAppState ℕ :=
  ⟨rfl, (message_guard_characterization ℕ).2.1 (initialAppState ℕ) msgNoFaces 1 1 rfl⟩

/-- C5 counterexample: a message whose `type` field is `"status_update"`
(not `"inference_results"`) but which carries a top-level faces map is NOT
ignored — processing it changes the faces map, contradicting the claim. -/
theorem message_type_ignored_counterexample :
    msgOtherType.msgType ≠ some "inference_results"
  ∧ (AppComponent.processInferenceData (initialAppState ℕ) (some msgOtherType) 1 1).faces
      ≠ (initialAppState ℕ).faces := by
  refine ⟨by decide, ?_⟩
  rw [AppComponent.process_valid _ _ [("e1", 1)] _ _ rfl]
  simp [initialAppState]

/-- C6: amended waveform claim.  An empty sample sequence performs no draw
call at all.  With exactly one sample no spline segment is drawn — but no
dot is rendered at the sample's position either: the x-step is the JS
division `480 / 0 = Infinity`, the dot's x-coordinate is `0 * Infinity =
NaN`, and the canvas `arc` call renders nothing for a non-finite coordinate;
only the clear, background fill, baseline and (empty-path) curve passes are
issued. -/
theorem waveform_draw_spec :
    BioSignal.draw [] = []
  ∧ ∀ v : ℚ,
      BioSignal.draw [v]
          = [.clear, .background, .baseline, .fillUnderCurve 0, .glowStroke 0,
             .mainStroke 0, .endDot BioSignal.JSNum.nan (BioSignal.yCoord v)]
      ∧ BioSignal.renderedDots (BioSignal.draw [v]) = [] := by
  refine ⟨rfl, fun v => ⟨?_, ?_⟩⟩
  · simp [BioSignal.draw, BioSignal.JSNum.div, BioSignal.JSNum.mul, BioSignal.splineSegments]
  · simp [BioSignal.draw, BioSignal.JSNum.div, BioSignal.JSNum.mul, BioSignal.splineSegments,
          BioSignal.renderedDots]

/-- C6 counterexample: with the single sample `0.5` the renderer draws no
dot at all (the dot's x-coordinate is `NaN`), contradicting the claim that
the render degenerates to a single point/dot at that sample's position. -/
theorem single_sample_dot_counterexample :
    BioSignal.renderedDots (BioSignal.draw [(1 : ℚ)/2]) = []
  ∧ BioSignal.draw [(1 : ℚ)/2] ≠ [] := by
  constructor
  · simp [BioSignal.draw, BioSignal.JSNum.div, BioSignal.JSNum.mul, BioSignal.splineSegments,
          BioSignal.renderedDots]
  · simp [BioSignal.draw, BioSignal.JSNum.div, BioSignal.JSNum.mul, BioSignal.splineSegments]

/-- C7: when `calibrationState = CALIBRATING` the BPM readout is masked with
the placeholder `"--"` and the translucent overlay panel is shown; in every
other state the numeric BPM (rounded by `toFixed(0)`) is displayed and the
overlay is absent. -/
theorem calibrating_masks_bpm :
    ∀ (st : String) (bpm : ℚ),
      (st = "CALIBRATING" →
        BioSignal.bpmText st bpm = "--" ∧ BioSignal.calibratingOverlay st = true)
    ∧ (st ≠ "CALIBRATING" →
        BioSignal.bpmText st bpm = toString (BioSignal.jsToFixed0 bpm)
        ∧ BioSignal.calibratingOverlay st = false) := by
  intro st bpm
  constructor
  · intro h
    subst h
    exact ⟨rfl, rfl⟩
  · intro h
    exact ⟨by simp [BioSignal.bpmText, h], by simp [BioSignal.calibratingOverlay, h]⟩

/-- C7 witness: calibrating masks the readout; the `STABLE` state shows the
rounded numeric BPM and no overlay. -/
theorem calibrating_masks_bpm_witness :
    BioSignal.bpmText "CALIBRATING" 72 = "--"
  ∧ BioSignal.bpmText "STABLE" 72 = toString (BioSignal.jsToFixed0 72)
  ∧ BioSignal.calibratingOverlay "STABLE" = false :=
  ⟨((calibrating_masks_bpm "CALIBRATING" 72).1 rfl).1,
   ((calibrating_masks_bpm "STABLE" 72).2 (by decide)).1,
   ((calibrating_masks_bpm "STABLE" 72).2 (by decide)).2⟩

/-- C8: amended last-arrival claim.  The `lastFrameTimestamp` field is
updated to the arrival time on every observation of a payload that passes
the validity guard (present with a faces map); observations of a missing
payload, or of one lacking a faces map, hit the early `return` and leave the
whole state — including `lastFrameTimestamp` — unchanged. -/
theorem last_arrival_update_characterization (α : Type) :
    (∀ (s : AppState α) (t sys : ℚ),
        AppComponent.processInferenceData s none t sys = s)
  ∧ (∀ (s : AppState α) (d : InferenceMsg α) (t sys : ℚ), d.faces = none →
        AppComponent.processInferenceData s (some d) t sys = s)
  ∧ (∀ (s : AppState α) (d : InferenceMsg α) (t sys : ℚ), d.faces.isSome →
        (AppComponent.processInferenceData s (some d) t sys).lastFrameTimestamp = t) := by
  refine ⟨fun s t sys => rfl, ?_, ?_⟩
  · intro s d t sys hf
    exact AppComponent.process_no_faces s d t sys hf
  · intro s d t sys h
    obtain ⟨f, hf⟩ := Option.isSome_iff_exists.mp h
    rw [AppComponent.process_valid s d f t sys hf]

/-- C8 witness: processing a valid payload at arrival time 10 stamps
`lastFrameTimestamp = 10`. -/
theorem last_arrival_update_characterization_witness :
    msgPlain.faces.isSome = true ∧
    (AppComponent.processInferenceData midState (some msgPlain) 10 0).lastFrameTimestamp
      = 10 :=
  ⟨rfl, (last_arrival_update_characterization ℕ).2.2 midState msgPlain 10 0 rfl⟩

/-- C8 counterexample: observing a missing payload (and likewise one without
a faces map) at arrival time 10 leaves `lastFrameTimestamp` at its previous
value 5 — the claim that it is updated unconditionally is false. -/
theorem last_arrival_unconditional_counterexample :
    (AppComponent.processInferenceData midState none 10 0).lastFrameTimestamp ≠ 10
  ∧ (AppComponent.processInferenceData midState (some msgNoFaces) 10 0).lastFrameTimestamp
      ≠ 10 := by
  constructor
  · show midState.lastFrameTimestamp ≠ 10
    norm_num [midState]
  · rw [AppComponent.process_no_faces midState msgNoFaces 10 0 rfl]
    norm_num [midState]

/-- Every event contributed by one session's messages is a `next` event and
therefore harmless. -/
theorem all_goodEvent_map_next {α : Type} (l : List α) :
    (l.map WebsocketService.StreamEvent.next).all WebsocketService.goodEvent = true := by
  induction l with
  | nil => rfl
  | cons a l ih => simp [WebsocketService.goodEvent, ih]

/-- Projecting the payloads back out of one session's `next` events returns
the session's messages. -/
theorem filterMap_nextPayload_map_next {α : Type} (l : List α) :
    (l.map WebsocketService.StreamEvent.next).filterMap WebsocketService.nextPayload
      = l := by
  induction l with
  | nil => rfl
  | cons a l ih => simp [WebsocketService.nextPayload, ih]

/-- Same statement with the function composition produced by
`List.filterMap_map`. -/
theorem filterMap_nextPayload_comp {α : Type} (l : List α) :
    l.filterMap (WebsocketService.nextPayload ∘ WebsocketService.StreamEvent.next)
      = l := by
  induction l with
  | nil => rfl
  | cons a l ih => simp [WebsocketService.nextPayload, ih, Function.comp]

/-- C9: under the configuration `retry({ delay: 2000 })` the stream client
has no retry-count ceiling (`count = none`) and a fixed 2000 ms delay; after
any number `n` of failed connection sessions the observable trace contains
no fatal downstream error and only 2000 ms reconnect waits (no backoff
growth), and the consumer-facing message sequence is exactly the
concatenation of all sessions' messages — never terminated by a transport
error. -/
theorem retry_never_fatal_fixed_delay (α : Type) :
    WebsocketService.inferenceRetryConfig.count = none
  ∧ WebsocketService.inferenceRetryConfig.delayMs = 2000
  ∧ ∀ (sessions : ℕ → List α) (n : ℕ),
      (WebsocketService.retryRun WebsocketService.inferenceRetryConfig sessions n).all
          WebsocketService.goodEvent = true
    ∧ (WebsocketService.retryRun WebsocketService.inferenceRetryConfig sessions n).filterMap
          WebsocketService.nextPayload
        = ((List.range n).map sessions).flatten := by
  refine ⟨rfl, rfl, fun sessions n => ?_⟩
  induction n with
  | zero => exact ⟨rfl, rfl⟩
  | succ n ih =>
      have hra : WebsocketService.retryAllowed WebsocketService.inferenceRetryConfig n
          = true := rfl
      have hdelay : WebsocketService.inferenceRetryConfig.delayMs = 2000 := rfl
      constructor
      · simp only [WebsocketService.retryRun, hra, if_pos, List.all_append, ih.1,
                   all_goodEvent_map_next, hdelay, Bool.true_and, Bool.and_true,
                   List.all_cons, List.all_nil, WebsocketService.goodEvent]
        simp
      · simp only [WebsocketService.retryRun, hra, if_pos, List.filterMap_append, ih.2,
                   List.range_succ, List.map_append, List.flatten_append,
                   List.filterMap_map, filterMap_nextPayload_comp, List.map_cons,
                   List.map_nil, List.flatten_cons, List.flatten_nil,
                   List.filterMap_cons, List.filterMap_nil, WebsocketService.nextPayload,
                   List.append_nil]

/-- C10: a processed snapshot whose optional `frame` field is absent or the
empty string leaves the stored current frame unchanged, while the faces map,
fps and backend latency are still recomputed from the snapshot exactly as
for any processed snapshot; the camera-stream child component likewise keeps
its previous `frameSrc` when the bound frame string is empty, so the
previously received server frame keeps being displayed. -/
theorem frame_absent_preserves_current_frame (α : Type) :
    (∀ (s : AppStateF α) (d : InferenceMsg α) (t sys : ℚ),
        d.frame = none ∨ d.frame = some "" →
          (AppComponentFrame.processInferenceData s (some d) t sys).currentFrame
              = s.currentFrame
          ∧ (AppComponentFrame.processInferenceData s (some d) t sys).faces
              = d.faces.getD []
          ∧ (AppComponentFrame.processInferenceData s (some d) t sys).backendLatencyMs
              = max 0 (sys - d.timestamp * 1000)
          ∧ (AppComponentFrame.processInferenceData s (some d) t sys).fps
              = if s.lastFrameTimestamp > (0 : ℚ)
                then 1000 / (t - s.lastFrameTimestamp) else s.fps)
  ∧ (∀ (frameSrc : String) (changed : Bool),
        CameraStream.ngOnChanges frameSrc changed "" = frameSrc) := by
  constructor
  · intro s d t sys h
    rcases h with h | h <;>
    · simp only [AppComponentFrame.processInferenceData, h]
      refine ⟨?_, ?_, ?_, ?_⟩ <;> (repeat' split) <;> simp_all
  · intro frameSrc changed
    simp [CameraStream.ngOnChanges]

/-- C10 witness: a snapshot carrying `frame = ""` processed from a state that
stores a previous frame keeps that frame, while faces, latency and fps are
recomputed from the snapshot. -/
theorem frame_absent_preserves_current_frame_witness :
    (msgEmptyFrame.frame = none ∨ msgEmptyFrame.frame = some "")
  ∧ (AppComponentFrame.processInferenceData frameState (some msgEmptyFrame) 7 1).currentFrame
      = "prevframe" :=
  ⟨Or.inr rfl,
   ((frame_absent_preserves_current_frame ℕ).1 frameState msgEmptyFrame 7 1 (Or.inr rfl)).1⟩

end FacialExpr
